import Mathlib

/-!
Verification of the Digital Forge MCP RAG pipeline
(`rag_mcp_server.py`, `setup_rag.py`) against its natural-language
specification.  The Python sources are shallowly embedded below: pure
fragments become Lean functions, the Qdrant collection state becomes an
explicit association-list store threaded through every operation, and
external capabilities (the embedding provider, the text splitter, the
similarity metric) become function parameters.  Similarity scores are
abstracted as integers: every ranking property proved here depends only
on scores carrying a decidable linear order, never on their numeric
interpretation.
-/

set_option maxRecDepth 100000

namespace DigitalForge

/-- Chunk metadata as built by `add_knowledge` and `chunk_documents`:
the reserved numeric keys `chunk_index` and `total_chunks`, plus all
remaining string-valued keys (caller metadata, `added_at`, `source`,
`filename`, ...) kept as an association list in `extra`. -/
structure Metadata where
  chunk_index : Nat
  total_chunks : Nat
  extra : List (String × String)
deriving DecidableEq

/-- A stored point: generated id, embedding vector, chunk text and its
metadata payload (`setup_rag.py` lines 122-132, and what
`vectorstore.add_texts` stores for the server). -/
structure Point where
  pid : Nat
  vec : List Int
  text : String
  meta : Metadata
deriving DecidableEq

/-- Similarity metric declared at collection creation.  Both creation
sites in the source use cosine; the type still separates metrics so a
schema mismatch is expressible. -/
inductive Metric where
  | cosine
  | dot
deriving DecidableEq

/-- A collection: dimension and metric fixed at creation, plus the
stored points in insertion order. -/
structure CollectionInfo where
  dim : Nat
  metric : Metric
  points : List Point
deriving DecidableEq

/-- The vector store state: named collections, as an association list. -/
abbrev Store := List (String × CollectionInfo)

/-- `COLLECTION_NAME = "digital_forge_knowledge"` — the hardcoded default
collection name (`rag_mcp_server.py` line 35, `setup_rag.py` line 28). -/
def COLLECTION_NAME : String := "digital_forge_knowledge"

/-- Look a collection up by name. -/
def lookupCollection (st : Store) (name : String) : Option CollectionInfo :=
  (st.find? (fun p => p.1 == name)).map (fun p => p.2)

/-- Whether a collection with this name exists (the
`COLLECTION_NAME in collection_names` check). -/
def hasCollection (st : Store) (name : String) : Bool :=
  st.any (fun p => p.1 == name)

/-- `client.create_collection(name, VectorParams(size, distance))`:
appends a fresh empty collection.  (Both call sites guard it so the name
is absent when called.) -/
def createCollection (st : Store) (name : String) (dim : Nat) (m : Metric) : Store :=
  st ++ [(name, ⟨dim, m, []⟩)]

/-- `client.delete_collection(name)`. -/
def deleteCollection (st : Store) (name : String) : Store :=
  st.filter (fun p => p.1 != name)

/-- `client.upsert(collection_name, points)` as used by this pipeline:
every point id is a freshly generated UUID (`setup_rag.py` line 124), so
insert-or-replace-by-id always inserts; the points are appended to the
named collection in order.  A missing collection is left as is (the real
store would error; no claim exercises that path). -/
def upsertFresh (st : Store) (name : String) (ps : List Point) : Store :=
  st.map (fun p => if p.1 == name then (p.1, ⟨p.2.dim, p.2.metric, p.2.points ++ ps⟩) else p)

/-! ## Vector-store search (spec-modelled)

The similarity search executes inside the Qdrant service / langchain
client, not in this repository's sources; only its callers
(`search_knowledge`, `query_with_context`) are in `src/`. -/

/-- Ranking order on `(score, insertion index)` keys: higher score
first, ties broken by lower insertion index (first-inserted wins). -/
def rankLE (a b : (Int × Nat) × Point) : Prop :=
  b.1.1 < a.1.1 ∨ (a.1.1 = b.1.1 ∧ a.1.2 ≤ b.1.2)

instance : DecidableRel rankLE := fun a b => by
  unfold rankLE; exact inferInstance

instance : IsTotal ((Int × Nat) × Point) rankLE := by
  constructor
  intro a b
  rcases lt_trichotomy a.1.1 b.1.1 with h | h | h
  · exact Or.inr (Or.inl h)
  · rcases Nat.le_total a.1.2 b.1.2 with h2 | h2
    · exact Or.inl (Or.inr ⟨h, h2⟩)
    · exact Or.inr (Or.inr ⟨h.symm, h2⟩)
  · exact Or.inl (Or.inl h)

instance : IsTrans ((Int × Nat) × Point) rankLE := by
  constructor
  intro a b c hab hbc
  rcases hab with h1 | ⟨h1, h1i⟩
  · rcases hbc with h2 | ⟨h2, _⟩
    · exact Or.inl (h2.trans h1)
    · exact Or.inl (h2 ▸ h1)
  · rcases hbc with h2 | ⟨h2, h2i⟩
    · exact Or.inl (h1 ▸ h2)
    · exact Or.inr ⟨h1.trans h2, h1i.trans h2i⟩

/-- Modelled from the spec: the Vector Store `search` capability
(§4.3), whose implementation lives in the external Qdrant service, not
under `src/`.  "Returns the top-`k` Points ranked by similarity score
under the collection's declared metric, highest score first; ties broken
by insertion order (first-inserted wins) for determinism; `k` is clamped
to the collection's current point count if larger."  `score` is the
similarity of the (already embedded) query to a point. -/
def vsSearch (ps : List Point) (score : Point → Int) (k : Nat) : List (Point × Int) :=
  let scored := ps.enum.map (fun e => ((score e.2, e.1), e.2))
  ((List.insertionSort rankLE scored).take k).map (fun x => (x.2, x.1.1))

/-! ## Chunker (spec-modelled)

`add_knowledge` and `chunk_documents` split text with langchain's
`RecursiveCharacterTextSplitter(chunk_size=1000, chunk_overlap=200)`,
whose implementation is not under `src/`; only its configuration and
call sites are. -/

/-- Fuel-driven worker for `splitNoSep`; `fuel ≥ cs.length` suffices
whenever `overlap < maxSize`. -/
def splitNoSepFuel (maxSize overlap : Nat) : Nat → List Char → List (List Char)
  | 0, _ => []
  | f + 1, cs =>
    if cs.length = 0 then []
    else if cs.length ≤ maxSize then [cs]
    else cs.take maxSize :: splitNoSepFuel maxSize overlap f (cs.drop (maxSize - overlap))

/-- Modelled from the spec: the Chunker (§4.1) is langchain's
`RecursiveCharacterTextSplitter`, absent from `src/`.  This models its
behaviour on text containing no separator at any level (the case the
claims exercise): "text containing only the finest separator unit longer
than `max_size` yields a hard cut at `max_size`", and "each chunk after
the first is extended to start `overlap` characters before the end of
the previous chunk's selected boundary" — so chunk boundaries fall at
multiples of `max_size - overlap`, each chunk spans `max_size`
characters (less at the end of the text), empty text yields an empty
sequence, and text no longer than `max_size` yields exactly one chunk. -/
def splitNoSep (maxSize overlap : Nat) (cs : List Char) : List (List Char) :=
  splitNoSepFuel maxSize overlap cs.length cs

/-- The server's configured splitter (`chunk_size=1000`,
`chunk_overlap=200`), on separator-free text, at the `String` level. -/
def splitText (maxSize overlap : Nat) (s : String) : List String :=
  (splitNoSep maxSize overlap s.data).map (fun cs => String.mk cs)

/-! ## Server request shapes (`rag_mcp_server.py` lines 52-69)

Pydantic fills `collection` with `COLLECTION_NAME` when the field is
omitted; the embedded requests always carry the resolved value. -/

structure SearchRequest where
  query : String
  k : Nat
  collection : String
deriving DecidableEq

structure AddKnowledgeRequest where
  content : String
  metadata : List (String × String)
  collection : String
deriving DecidableEq

structure QueryWithContextRequest where
  query : String
  context_k : Nat
  collection : String
deriving DecidableEq

structure UpdateIndexRequest where
  collection : String
  force_rebuild : Bool
deriving DecidableEq

/-! ## Server startup and handlers (`rag_mcp_server.py`) -/

/-- `startup_event` lines 100-109: look the collection names up; when
`COLLECTION_NAME` is absent, create it with `size=1536`,
`distance=COSINE`; when present, do nothing — the existing collection's
dimension and metric are not inspected.  The handler raises no
schema-related error on any path. -/
def startup_ensure (st : Store) : Store :=
  if hasCollection st COLLECTION_NAME then st
  else createCollection st COLLECTION_NAME 1536 Metric.cosine

/-- `startup_event` lines 112-117: the global `vectorstore` is
constructed over `collection_name=COLLECTION_NAME`.  Every handler that
goes through `vectorstore` therefore operates on this fixed name. -/
def boundCollection : String := COLLECTION_NAME

/-- `search_knowledge` lines 152-183: searches through the global
`vectorstore` — bound to `COLLECTION_NAME` — with `request.query` and
`request.k`; `request.collection` is never read.  Results are formatted
as (content, score) pairs.  `none` models the 503/500 error path taken
when the vectorstore is uninitialized or the bound collection is
missing. -/
def search_knowledge (st : Store) (score : Point → Int) (req : SearchRequest) :
    Option (List (String × Int)) :=
  match lookupCollection st boundCollection with
  | none => none
  | some info =>
    some ((vsSearch info.points score req.k).map (fun r => (r.1.text, r.2)))

/-- `add_knowledge` lines 218-223: the metadata list attached to the
chunks of one request — caller metadata merged with `chunk_index = i`,
`total_chunks = len(chunks)` and an `added_at` timestamp, for
`i in range(len(chunks))`. -/
def buildMetadatas (userMeta : List (String × String)) (now : String) (n : Nat) :
    List Metadata :=
  (List.range n).map (fun i => ⟨i, n, userMeta ++ [("added_at", now)]⟩)

/-- One stored point per (chunk, metadata) pair: fresh id from the id
stream, the chunk's embedding, text and payload (`vectorstore.add_texts`
resp. `setup_rag.py` lines 122-132). -/
def mkPoints (embed : String → List Int) (freshId : Nat → Nat)
    (chunks : List String) (metas : List Metadata) : List Point :=
  (chunks.zip metas).enum.map (fun e => ⟨freshId e.1, embed e.2.1, e.2.1, e.2.2⟩)

/-- `add_knowledge` lines 200-233: split `request.content` with the
configured splitter, build the metadatas, and add the texts through the
global `vectorstore` — bound to `COLLECTION_NAME`; `request.collection`
is never read.  The splitter, embedding and id generation are external
and passed as parameters.  Returns the new store and the stored
points. -/
def add_knowledge (splitter : String → List String) (embed : String → List Int)
    (freshId : Nat → Nat) (now : String) (st : Store) (req : AddKnowledgeRequest) :
    Store × List Point :=
  let chunks := splitter req.content
  let metadatas := buildMetadatas req.metadata now chunks.length
  let points := mkPoints embed freshId chunks metadatas
  (upsertFresh st boundCollection points, points)

/-- `query_with_context` lines 266-270: label each retrieved document
1-indexed and join with blank lines. -/
def buildContext (docs : List String) : String :=
  String.intercalate "\n\n"
    ((List.enumFrom 1 docs).map (fun p => "[Context " ++ toString p.1 ++ "]\n" ++ p.2))

/-- `query_with_context` lines 273-280: the fixed prompt template. -/
def buildPrompt (context query : String) : String :=
  "Based on the following context, answer the query.\n\nContext:\n" ++ context ++
    "\n\nQuery: " ++ query ++ "\n\nAnswer:"

/-- `query_with_context` lines 250-289: retrieve `context_k` documents
via the global `vectorstore` (`similarity_search`, which yields
documents without scores — the underlying ranking scores are discarded),
build the context block and prompt.  As with the other vectorstore
handlers, `request.collection` is never read.  Returns
(context, prompt, number of context documents). -/
def query_with_context (st : Store) (score : Point → Int)
    (req : QueryWithContextRequest) : Option (String × String × Nat) :=
  match lookupCollection st boundCollection with
  | none => none
  | some info =>
    let docs := (vsSearch info.points score req.context_k).map (fun r => r.1.text)
    let context := buildContext docs
    some (context, buildPrompt context req.query, docs.length)

/-- Successful response of `update_knowledge_index` lines 323-330. -/
structure UpdateIndexResponse where
  collection : String
  vectors_count : Nat
  points_count : Nat
deriving DecidableEq

/-- `update_knowledge_index` lines 300-337: reads
`get_collection(request.collection)` and returns its counts; the
`force_rebuild` branch only logs a warning ("In production, implement
actual rebuild logic") and changes nothing.  No store-mutating client
method is called on any path; the store is returned alongside the
response to make that observable.  `clientInit` models whether
`qdrant_client` is initialized; every failure (uninitialized client or
absent collection) surfaces through the catch-all as an error
(`none`). -/
def update_knowledge_index (clientInit : Bool) (st : Store) (req : UpdateIndexRequest) :
    Option UpdateIndexResponse × Store :=
  if clientInit = false then (none, st)
  else
    match lookupCollection st req.collection with
    | none => (none, st)
    | some info =>
      (some ⟨req.collection, info.points.length, info.points.length⟩, st)

/-- Statistics payload of the collection-stats resource. -/
structure StatsResponse where
  collection : String
  vectors_count : Nat
  points_count : Nat
deriving DecidableEq

/-- A store fetch outcome as seen by `get_collection(collection)`:
either the collection's info, or a failure — the collection is absent,
or the transport to the store failed. -/
inductive FetchResult where
  | ok (info : CollectionInfo)
  | absent
  | transportError
deriving DecidableEq

/-- `get_collection_stats_resource` lines 398-426: inside one `try`, a
503 is raised when `qdrant_client` is uninitialized, then
`get_collection(collection)` is called; the `except Exception` clause
catches every exception raised in the block — including the 503 and any
transport error — and re-raises 404 `"Collection not found: {name}"`.
So every failure, of any kind, is reported as (404, collection not
found). -/
def get_collection_stats (clientInit : Bool) (fetch : String → FetchResult)
    (collection : String) : Except (Nat × String) StatsResponse :=
  let attempt : Option StatsResponse :=
    if clientInit = false then none
    else
      match fetch collection with
      | FetchResult.ok info => some ⟨collection, info.points.length, info.points.length⟩
      | FetchResult.absent => none
      | FetchResult.transportError => none
  match attempt with
  | some r => Except.ok r
  | none => Except.error (404, "Collection not found: " ++ collection)

/-! ## Setup script (`setup_rag.py`) -/

/-- `chunk_documents` lines 66-74, for one document: split the content,
then pair each chunk with the document metadata plus `chunk_index = i`
and `total_chunks = n`. -/
def chunkOneDoc (splitter : String → List String)
    (doc : String × List (String × String)) : List (String × Metadata) :=
  let text_chunks := splitter doc.1
  text_chunks.enum.map (fun e => (e.2, ⟨e.1, text_chunks.length, doc.2⟩))

/-- `chunk_documents` lines 56-77: concatenate the chunk lists of all
documents in order. -/
def chunk_documents (splitter : String → List String)
    (docs : List (String × List (String × String))) : List (String × Metadata) :=
  docs.flatMap (chunkOneDoc splitter)

/-- Fuel-driven worker for `index_documents`; fuel ≥ number of chunks
suffices since each round consumes a batch of 100 > 0 chunks. -/
def indexDocumentsFuel (embedBatch : List String → Option (List (List Int)))
    (freshId : Nat → Nat) : Nat → List (String × Metadata) → Store → Store × Bool
  | 0, _, st => (st, true)
  | f + 1, chunks, st =>
    if chunks.length = 0 then (st, true)
    else
      match embedBatch ((chunks.take 100).map (fun c => c.1)) with
      | none => (st, false)
      | some vecs =>
        indexDocumentsFuel embedBatch freshId f (chunks.drop 100)
          (upsertFresh st COLLECTION_NAME
            (((chunks.take 100).zip vecs).enum.map
              (fun e => ⟨freshId e.1, e.2.2, e.2.1.1, e.2.1.2⟩)))

/-- `index_documents` lines 101-148: walk the chunk list in batches of
`batch_size = 100`; for each batch, embed it (`embed_documents`), build
one point per chunk with a fresh UUID, and `client.upsert` that batch
into `COLLECTION_NAME` — one upsert call per batch.  When embedding a
batch raises, the `except` clause logs and re-raises: the batches
already upserted stay in the store.  Returns the final store and whether
the call completed without error. -/
def index_documents (embedBatch : List String → Option (List (List Int)))
    (freshId : Nat → Nat) (chunks : List (String × Metadata)) (st : Store) :
    Store × Bool :=
  indexDocumentsFuel embedBatch freshId chunks.length chunks st

/-- `setup_qdrant_collection` lines 79-99: when `COLLECTION_NAME`
already exists it is deleted ("already exists, recreating..."), then a
fresh empty collection is created with the requested `vector_size` and
cosine distance.  The existing collection's contents are discarded. -/
def setup_qdrant_collection (st : Store) (vector_size : Nat) : Store :=
  let st1 := if hasCollection st COLLECTION_NAME
             then deleteCollection st COLLECTION_NAME else st
  createCollection st1 COLLECTION_NAME vector_size Metric.cosine

/-! ## Spec-side definitions for refinement claims -/

/-- The context block exactly as the spec sentence words it: "concatenate
each result's chunk text under a `[Context i]` label (1-indexed)
separated by blank lines" — written as a direct recursion labelling from
`i`. -/
def specContextFrom (i : Nat) : List String → String
  | [] => ""
  | [t] => "[Context " ++ toString i ++ "]\n" ++ t
  | t :: u :: ts =>
    "[Context " ++ toString i ++ "]\n" ++ t ++ "\n\n" ++ specContextFrom (i + 1) (u :: ts)

/-- The spec's context block, labels starting at 1. -/
def specContext (docs : List String) : String :=
  specContextFrom 1 docs

/-! ## Concrete fixtures for counterexamples and witnesses -/

/-- Empty metadata payload. -/
def emptyMeta : Metadata := ⟨0, 0, []⟩

/-- Just the default collection, empty — the state right after startup
against a fresh store. -/
def stDefault : Store := [(COLLECTION_NAME, ⟨1536, Metric.cosine, []⟩)]

/-- A point stored in the collection `"other_kb"`. -/
def ptOther : Point := ⟨1, [1], "the other knowledge base's document", emptyMeta⟩

/-- Two collections: the default one empty, `"other_kb"` holding one
point. -/
def stTwo : Store :=
  [(COLLECTION_NAME, ⟨1536, Metric.cosine, []⟩),
   ("other_kb", ⟨1536, Metric.cosine, [ptOther]⟩)]

/-- A point stored in the default collection. -/
def ptDefault : Point := ⟨7, [1], "stored document", emptyMeta⟩

/-- The default collection holding one point. -/
def stOnePoint : Store := [(COLLECTION_NAME, ⟨1536, Metric.cosine, [ptDefault]⟩)]

/-- The default collection existing with dimension 512 instead of
1536. -/
def stDim512 : Store := [(COLLECTION_NAME, ⟨512, Metric.cosine, []⟩)]

/-- 101 chunks; the 101st lands alone in the second embedding batch and
carries the marker text that makes `embedFailOnMarker` fail. -/
def chunks101 : List (String × Metadata) :=
  List.replicate 100 ("a", emptyMeta) ++ [("FAIL", emptyMeta)]

/-- Embedding-batch oracle that fails exactly on batches containing the
marker text `"FAIL"` and otherwise embeds every text as `[0]`. -/
def embedFailOnMarker : List String → Option (List (List Int)) :=
  fun ts => if ts.contains "FAIL" then none else some (ts.map (fun _ => [0]))

/-- The 1200-character separator-free document of the spec's concrete
chunking scenario. -/
def docAAAA : List Char := List.replicate 1200 'A'

/-! ## Helper lemmas about the store -/

theorem upsertFresh_nil (st : Store) (name : String) : upsertFresh st name [] = st := by
  induction st with
  | nil => rfl
  | cons p st ih =>
    simp only [upsertFresh, List.map_cons] at *
    by_cases h : p.1 == name <;> simp [h, ih]

theorem lookupCollection_append (st₁ st₂ : Store) (c : String) :
    lookupCollection (st₁ ++ st₂) c =
      (lookupCollection st₁ c).or (lookupCollection st₂ c) := by
  simp only [lookupCollection, List.find?_append]
  cases List.find? (fun p => p.1 == c) st₁ <;> simp

theorem lookupCollection_delete_self (st : Store) (c : String) :
    lookupCollection (deleteCollection st c) c = none := by
  have hf : List.find? (fun p => p.1 == c) (List.filter (fun p => p.1 != c) st) = none := by
    rw [List.find?_eq_none]
    intro x hx
    have := (List.mem_filter.mp hx).2
    simpa using this
  simp [lookupCollection, deleteCollection, hf]

theorem lookupCollection_eq_none_of_not_has (st : Store) (c : String)
    (h : hasCollection st c = false) : lookupCollection st c = none := by
  have hf : List.find? (fun p => p.1 == c) st = none := by
    rw [List.find?_eq_none]
    intro x hx hc
    have hany : st.any (fun p => p.1 == c) = true := List.any_eq_true.mpr ⟨x, hx, hc⟩
    rw [hasCollection, hany] at h
    cases h
  simp [lookupCollection, hf]

theorem lookupCollection_upsertFresh (st : Store) (n c : String) (ps : List Point) :
    lookupCollection (upsertFresh st n ps) c =
      (lookupCollection st c).map
        (fun i => if c == n then ⟨i.dim, i.metric, i.points ++ ps⟩ else i) := by
  induction st with
  | nil => simp [lookupCollection, upsertFresh]
  | cons p st ih =>
    simp only [upsertFresh, List.map_cons] at ih ⊢
    by_cases hn : p.1 == n <;> by_cases h : p.1 == c
    · have h1 : p.1 = c := eq_of_beq h
      have h2 : p.1 = n := eq_of_beq hn
      have hcn : (c == n) = true := beq_iff_eq.mpr (h1 ▸ h2)
      simp only [lookupCollection, hn, if_true]
      rw [List.find?_cons_of_pos (p := fun q : String × CollectionInfo => q.1 == c) _ (by simpa using h),
        List.find?_cons_of_pos (p := fun q : String × CollectionInfo => q.1 == c) _ h]
      simp [hcn]
    · simp only [lookupCollection, hn, if_true]
      rw [List.find?_cons_of_neg (p := fun q : String × CollectionInfo => q.1 == c) _ (by simpa using h),
        List.find?_cons_of_neg (p := fun q : String × CollectionInfo => q.1 == c) _ h]
      exact ih
    · have h1 : p.1 = c := eq_of_beq h
      have h2 : (p.1 == n) = false := by simpa using hn
      have hcn : (c == n) = false := h1 ▸ h2
      have hn3 : (p.1 == n) = false := by simpa using hn
      simp only [lookupCollection, hn3, Bool.false_eq_true, if_false]
      rw [List.find?_cons_of_pos (p := fun q : String × CollectionInfo => q.1 == c) _ h,
        List.find?_cons_of_pos (p := fun q : String × CollectionInfo => q.1 == c) _ h]
      simp [hcn]
    · have hn3 : (p.1 == n) = false := by simpa using hn
      simp only [lookupCollection, hn3, Bool.false_eq_true, if_false]
      rw [List.find?_cons_of_neg (p := fun q : String × CollectionInfo => q.1 == c) _ h,
        List.find?_cons_of_neg (p := fun q : String × CollectionInfo => q.1 == c) _ h]
      exact ih

/-! ## Helper lemmas about metadata construction -/

theorem buildMetadatas_length (u : List (String × String)) (now : String) (n : Nat) :
    (buildMetadatas u now n).length = n := by
  simp [buildMetadatas]

theorem buildMetadatas_map_chunk_index (u : List (String × String)) (now : String) (n : Nat) :
    (buildMetadatas u now n).map (fun m => m.chunk_index) = List.range n := by
  simp [buildMetadatas, List.map_map]
  exact List.map_id _

theorem buildMetadatas_total_chunks (u : List (String × String)) (now : String) (n : Nat) :
    ∀ m ∈ buildMetadatas u now n, m.total_chunks = n := by
  intro m hm
  simp only [buildMetadatas, List.mem_map] at hm
  obtain ⟨i, _, rfl⟩ := hm
  rfl

theorem mkPoints_map_meta (embed : String → List Int) (freshId : Nat → Nat)
    (chunks : List String) (metas : List Metadata) (h : metas.length = chunks.length) :
    (mkPoints embed freshId chunks metas).map (fun p => p.meta) = metas := by
  unfold mkPoints
  rw [List.map_map]
  have h1 : ((fun p : Point => p.meta) ∘
      (fun e : Nat × (String × Metadata) =>
        (⟨freshId e.1, embed e.2.1, e.2.1, e.2.2⟩ : Point))) = Prod.snd ∘ Prod.snd := rfl
  rw [h1, ← List.map_map, List.enum_map_snd, List.map_snd_zip _ _ (le_of_eq h)]

/-! ## Claim theorems -/

/-- C2: for every collection point list, scoring function and `k`, the
vector-store search returns exactly `min k n` results where `n` is the
collection's current point count — so at most `k`, and exactly `n`
without erroring when `k` exceeds `n` — sorted by non-increasing
similarity score. -/
theorem claim_C2_search_clamped_sorted (ps : List Point) (score : Point → Int) (k : Nat) :
    (vsSearch ps score k).length = min k ps.length ∧
    List.Sorted (fun a b : Point × Int => b.2 ≤ a.2) (vsSearch ps score k) := by
  constructor
  · unfold vsSearch
    simp [List.length_take]
  · unfold vsSearch
    have hs := List.sorted_insertionSort rankLE
      (ps.enum.map (fun e => ((score e.2, e.1), e.2)))
    have ht := List.Pairwise.sublist (List.take_sublist k _) hs
    refine (List.pairwise_map).mpr (ht.imp ?_)
    intro a b hab
    rcases hab with h | ⟨h, _⟩
    · exact le_of_lt h
    · exact le_of_eq h.symm

/-- C3: for every ingestion call — `add_knowledge` on the server, or one
document of `chunk_documents` in the setup script — producing `n`
chunks, the attached metadata assigns `chunk_index` values exactly
`0..n-1` in order and every chunk carries `total_chunks = n`. -/
theorem claim_C3_chunk_indices (splitter : String → List String) (embed : String → List Int)
    (freshId : Nat → Nat) (now : String) (st : Store) (req : AddKnowledgeRequest)
    (doc : String × List (String × String)) :
    ((add_knowledge splitter embed freshId now st req).2.map (fun p => p.meta.chunk_index)
       = List.range (splitter req.content).length) ∧
    (∀ p ∈ (add_knowledge splitter embed freshId now st req).2,
       p.meta.total_chunks = (splitter req.content).length) ∧
    ((chunkOneDoc splitter doc).map (fun c => c.2.chunk_index)
       = List.range (splitter doc.1).length) ∧
    (∀ c ∈ chunkOneDoc splitter doc, c.2.total_chunks = (splitter doc.1).length) := by
  have hmeta : (add_knowledge splitter embed freshId now st req).2.map (fun p => p.meta)
      = buildMetadatas req.metadata now (splitter req.content).length := by
    show (mkPoints embed freshId (splitter req.content)
        (buildMetadatas req.metadata now (splitter req.content).length)).map
        (fun p => p.meta) = _
    exact mkPoints_map_meta _ _ _ _ (buildMetadatas_length _ _ _)
  refine ⟨?_, ?_, ?_, ?_⟩
  · have : (add_knowledge splitter embed freshId now st req).2.map
        (fun p => p.meta.chunk_index)
        = ((add_knowledge splitter embed freshId now st req).2.map (fun p => p.meta)).map
          (fun m => m.chunk_index) := by
      rw [List.map_map]; rfl
    rw [this, hmeta, buildMetadatas_map_chunk_index]
  · intro p hp
    have : p.meta ∈ buildMetadatas req.metadata now (splitter req.content).length := by
      rw [← hmeta]; exact List.mem_map_of_mem _ hp
    exact buildMetadatas_total_chunks _ _ _ _ this
  · show ((splitter doc.1).enum.map
        (fun e => (e.2, (⟨e.1, (splitter doc.1).length, doc.2⟩ : Metadata)))).map
        (fun c => c.2.chunk_index) = _
    rw [List.map_map]
    have h1 : ((fun c : String × Metadata => c.2.chunk_index) ∘
        (fun e : Nat × String =>
          (e.2, (⟨e.1, (splitter doc.1).length, doc.2⟩ : Metadata)))) = Prod.fst := rfl
    rw [h1, List.enum_map_fst]
  · intro c hc
    simp only [chunkOneDoc, List.mem_map] at hc
    obtain ⟨e, _, rfl⟩ := hc
    rfl

/-! ## Context assembly: `str.join` against the spec's recursion -/

theorem intercalate_go_append (s acc₁ acc₂ : String) (l : List String) :
    String.intercalate.go (acc₁ ++ acc₂) s l = acc₁ ++ String.intercalate.go acc₂ s l := by
  induction l generalizing acc₂ with
  | nil => simp [String.intercalate.go]
  | cons a l ih =>
    have h1 : String.intercalate.go (acc₁ ++ acc₂) s (a :: l)
        = String.intercalate.go (acc₁ ++ acc₂ ++ s ++ a) s l := by
      simp [String.intercalate.go]
    have h2 : String.intercalate.go acc₂ s (a :: l)
        = String.intercalate.go (acc₂ ++ s ++ a) s l := by
      simp [String.intercalate.go]
    rw [h1, h2, show acc₁ ++ acc₂ ++ s ++ a = acc₁ ++ (acc₂ ++ s ++ a) by
      simp [String.append_assoc], ih]

theorem intercalate_cons_cons (s a b : String) (l : List String) :
    String.intercalate s (a :: b :: l) = a ++ s ++ String.intercalate s (b :: l) := by
  show String.intercalate.go a s (b :: l) = a ++ s ++ String.intercalate.go b s l
  have h1 : String.intercalate.go a s (b :: l)
      = String.intercalate.go (a ++ s ++ b) s l := by
    simp [String.intercalate.go]
  rw [h1, show a ++ s ++ b = (a ++ s) ++ b from rfl, intercalate_go_append,
    String.append_assoc]

theorem buildContextFrom_eq_specContextFrom (docs : List String) (i : Nat) :
    String.intercalate "\n\n"
      ((List.enumFrom i docs).map (fun p => "[Context " ++ toString p.1 ++ "]\n" ++ p.2))
      = specContextFrom i docs := by
  induction docs generalizing i with
  | nil => rfl
  | cons t ts ih =>
    cases ts with
    | nil =>
      simp [List.enumFrom, String.intercalate, String.intercalate.go, specContextFrom]
    | cons u us =>
      show String.intercalate "\n\n"
        (("[Context " ++ toString i ++ "]\n" ++ t) ::
          ("[Context " ++ toString (i + 1) ++ "]\n" ++ u) ::
          (List.enumFrom (i + 2) us).map
            (fun p => "[Context " ++ toString p.1 ++ "]\n" ++ p.2)) = _
      rw [intercalate_cons_cons]
      have := ih (i + 1)
      simp only [List.enumFrom, List.map_cons] at this
      rw [this]
      rfl

theorem buildContext_eq_specContext (docs : List String) :
    buildContext docs = specContext docs :=
  buildContextFrom_eq_specContextFrom docs 1

/-- C7: whenever `query_with_context` succeeds, it discards the
retrieval scores and returns exactly the spec's context block — each
result's chunk text under a 1-indexed `[Context i]` label, entries
separated by blank lines — and a prompt embedding that context, then the
literal query string verbatim, then the `"Answer:"` cue. -/
theorem claim_C7_context_assembly (st : Store) (score : Point → Int)
    (req : QueryWithContextRequest) (info : CollectionInfo)
    (h : lookupCollection st boundCollection = some info) :
    query_with_context st score req =
      some (specContext ((vsSearch info.points score req.context_k).map (fun r => r.1.text)),
        "Based on the following context, answer the query.\n\nContext:\n"
          ++ specContext ((vsSearch info.points score req.context_k).map (fun r => r.1.text))
          ++ "\n\nQuery: " ++ req.query ++ "\n\nAnswer:",
        ((vsSearch info.points score req.context_k).map (fun r => r.1.text)).length) := by
  unfold query_with_context
  rw [h]
  simp only [buildPrompt, buildContext_eq_specContext]

/-- Witness for C7 at a concrete one-point store and query. -/
theorem claim_C7_context_assembly_witness :
    query_with_context stOnePoint (fun _ => 0) ⟨"what is X?", 2, COLLECTION_NAME⟩ =
      some (specContext ((vsSearch [ptDefault] (fun _ => 0) 2).map (fun r => r.1.text)),
        "Based on the following context, answer the query.\n\nContext:\n"
          ++ specContext ((vsSearch [ptDefault] (fun _ => 0) 2).map (fun r => r.1.text))
          ++ "\n\nQuery: " ++ "what is X?" ++ "\n\nAnswer:",
        ((vsSearch [ptDefault] (fun _ => 0) 2).map (fun r => r.1.text)).length) :=
  claim_C7_context_assembly stOnePoint (fun _ => 0) ⟨"what is X?", 2, COLLECTION_NAME⟩
    ⟨1536, Metric.cosine, [ptDefault]⟩ (by decide)

/-! ## Update-index and stats -/

theorem update_knowledge_index_snd (clientInit : Bool) (st : Store)
    (req : UpdateIndexRequest) : (update_knowledge_index clientInit st req).2 = st := by
  unfold update_knowledge_index
  split
  · rfl
  · split <;> rfl

/-- C10: `update_knowledge_index` never mutates the vector store — even
with `force_rebuild = true` the store after the call is the store before
it — and a successful call just reports the target collection's current
point count back. -/
theorem claim_C10_update_index_no_mutation (clientInit : Bool) (st : Store)
    (req : UpdateIndexRequest) :
    ((update_knowledge_index clientInit st req).2 = st) ∧
    (∀ info, lookupCollection st req.collection = some info → clientInit = true →
      (update_knowledge_index clientInit st req).1
        = some ⟨req.collection, info.points.length, info.points.length⟩) := by
  refine ⟨update_knowledge_index_snd _ _ _, ?_⟩
  intro info hinfo hinit
  subst hinit
  unfold update_knowledge_index
  simp [hinfo]

/-- Witness for C10 with `force_rebuild = true` against a one-point
store. -/
theorem claim_C10_update_index_no_mutation_witness :
    (update_knowledge_index true stOnePoint ⟨COLLECTION_NAME, true⟩).2 = stOnePoint ∧
    (update_knowledge_index true stOnePoint ⟨COLLECTION_NAME, true⟩).1
      = some ⟨COLLECTION_NAME, 1, 1⟩ :=
  ⟨(claim_C10_update_index_no_mutation true stOnePoint ⟨COLLECTION_NAME, true⟩).1,
   (claim_C10_update_index_no_mutation true stOnePoint ⟨COLLECTION_NAME, true⟩).2
     ⟨1536, Metric.cosine, [ptDefault]⟩ (by decide) rfl⟩

/-- C9 counterexample: the collection-stats operation reports
`Collection not found` on a store transport error and even on an
uninitialized client with the collection present — failures other than
absence are mapped to `CollectionNotFound`, refuting the claim. -/
theorem claim_C9_counterexample :
    get_collection_stats true (fun _ => FetchResult.transportError) "kb"
      = Except.error (404, "Collection not found: kb") ∧
    get_collection_stats false (fun _ => FetchResult.ok ⟨1536, Metric.cosine, []⟩) "kb"
      = Except.error (404, "Collection not found: kb") := by
  constructor <;> rfl

/-- C9 amended: the collection-stats operation returns the collection's
statistics when the client is initialized and the fetch succeeds, and
maps every failure — uninitialized client, transport error, or absent
collection — to the single 404 `Collection not found` error, preserving
no distinction between failure kinds. -/
theorem claim_C9_stats_error_collapses_kinds (clientInit : Bool)
    (fetch : String → FetchResult) (c : String) :
    (∀ info, clientInit = true → fetch c = FetchResult.ok info →
      get_collection_stats clientInit fetch c
        = Except.ok ⟨c, info.points.length, info.points.length⟩) ∧
    (∀ e, get_collection_stats clientInit fetch c = Except.error e →
      e = (404, "Collection not found: " ++ c)) := by
  constructor
  · intro info hb hf
    subst hb
    simp [get_collection_stats, hf]
  · intro e he
    unfold get_collection_stats at he
    cases hb : clientInit
    · rw [hb] at he
      simp at he
      exact he.symm
    · rw [hb] at he
      cases hf : fetch c <;> rw [hf] at he <;> simp at he
      · exact he.symm
      · exact he.symm

/-- Witness for C9 amended: a successful stats read and a collapsed
transport failure at concrete inputs. -/
theorem claim_C9_stats_error_collapses_kinds_witness :
    get_collection_stats true (fun _ => FetchResult.ok ⟨1536, Metric.cosine, []⟩) "kb"
      = Except.ok ⟨"kb", 0, 0⟩ ∧
    (404, "Collection not found: kb")
      = ((404 : Nat), "Collection not found: " ++ "kb") :=
  ⟨(claim_C9_stats_error_collapses_kinds true
      (fun _ => FetchResult.ok ⟨1536, Metric.cosine, []⟩) "kb").1
      ⟨1536, Metric.cosine, []⟩ rfl rfl,
   (claim_C9_stats_error_collapses_kinds true
      (fun _ => FetchResult.transportError) "kb").2
      (404, "Collection not found: kb") (by rfl)⟩

/-! ## Collection routing and lifecycle -/

theorem lookupCollection_singleton (n : String) (i : CollectionInfo) :
    lookupCollection [(n, i)] n = some i := by
  have h : ((n, i).1 == n) = true := by simp
  simp [lookupCollection,
    List.find?_cons_of_pos (p := fun q : String × CollectionInfo => q.1 == n) _ h]

/-- C1: the search, add-knowledge and query-with-context handlers
operate through the global vectorstore bound to `COLLECTION_NAME` and
never read the request's `collection` field.  At a store whose default
collection is empty while `"other_kb"` holds the only document, a search
naming `"other_kb"` returns no results even though searching
`"other_kb"` itself would return its document, and an add-knowledge
request naming `"other_kb"` writes its chunk into the default collection
while `"other_kb"` stays at one point. -/
theorem claim_C1_collection_field_ignored :
    search_knowledge stTwo (fun p => (p.pid : Int)) ⟨"q", 5, "other_kb"⟩ = some [] ∧
    (lookupCollection stTwo "other_kb").map
        (fun i => (vsSearch i.points (fun p => (p.pid : Int)) 5).map (fun r => r.1.text))
      = some ["the other knowledge base's document"] ∧
    (lookupCollection ((add_knowledge (splitText 1000 200) (fun _ => [1]) (fun i => i) "t"
        stTwo ⟨"hello", [], "other_kb"⟩).1) "other_kb").map (fun i => i.points.length)
      = some 1 ∧
    (lookupCollection ((add_knowledge (splitText 1000 200) (fun _ => [1]) (fun i => i) "t"
        stTwo ⟨"hello", [], "other_kb"⟩).1) COLLECTION_NAME).map (fun i => i.points.length)
      = some 1 := by
  refine ⟨?_, ?_, ?_, ?_⟩ <;> decide

/-- C5 counterexample: with the default collection already existing at
the same dimension and metric (1536, cosine) and holding one point, the
setup script's ensure path does not "change nothing" — it empties the
collection; and with the collection existing at dimension 512, the
server's startup ensure path succeeds unchanged instead of failing with
a schema mismatch. -/
theorem claim_C5_counterexample :
    setup_qdrant_collection stOnePoint 1536 ≠ stOnePoint ∧
    (lookupCollection (setup_qdrant_collection stOnePoint 1536) COLLECTION_NAME).map
        (fun i => i.points) = some [] ∧
    startup_ensure stDim512 = stDim512 := by
  refine ⟨?_, ?_, ?_⟩ <;> decide

/-- C5 amended: neither ensure path validates the schema.  The server's
startup path creates the default collection with dimension 1536 and
cosine metric when absent and otherwise leaves the store untouched,
succeeding regardless of the existing dimension or metric; the setup
script's path always results in a freshly created empty collection with
the requested dimension, deleting any existing one.  No
`CollectionSchemaMismatch` error exists on either path. -/
theorem claim_C5_ensure_actual_behaviour (st : Store) (d : Nat) :
    (hasCollection st COLLECTION_NAME = false →
      startup_ensure st = createCollection st COLLECTION_NAME 1536 Metric.cosine) ∧
    (hasCollection st COLLECTION_NAME = true → startup_ensure st = st) ∧
    lookupCollection (setup_qdrant_collection st d) COLLECTION_NAME
      = some ⟨d, Metric.cosine, []⟩ := by
  refine ⟨?_, ?_, ?_⟩
  · intro h
    simp [startup_ensure, h]
  · intro h
    simp [startup_ensure, h]
  · unfold setup_qdrant_collection createCollection
    by_cases h : hasCollection st COLLECTION_NAME
    · simp only [h, if_true]
      rw [lookupCollection_append, lookupCollection_delete_self,
        lookupCollection_singleton]
      rfl
    · have h' : hasCollection st COLLECTION_NAME = false := by simpa using h
      simp only [h', Bool.false_eq_true, if_false]
      rw [lookupCollection_append, lookupCollection_eq_none_of_not_has _ _ h',
        lookupCollection_singleton]
      rfl

/-- Witness for C5 amended at the 512-dimension store and the empty
store. -/
theorem claim_C5_ensure_actual_behaviour_witness :
    startup_ensure stDim512 = stDim512 ∧
    startup_ensure [] = createCollection [] COLLECTION_NAME 1536 Metric.cosine ∧
    lookupCollection (setup_qdrant_collection stDim512 1536) COLLECTION_NAME
      = some ⟨1536, Metric.cosine, []⟩ :=
  ⟨(claim_C5_ensure_actual_behaviour stDim512 1536).2.1 (by decide),
   (claim_C5_ensure_actual_behaviour [] 1536).1 (by decide),
   (claim_C5_ensure_actual_behaviour stDim512 1536).2.2⟩

/-- C6 counterexample: the setup script's creation path invoked on the
already-existing default collection does not leave its contents intact —
the stored point is gone afterwards. -/
theorem claim_C6_counterexample :
    (lookupCollection stOnePoint COLLECTION_NAME).map (fun i => i.points)
      = some [ptDefault] ∧
    (lookupCollection (setup_qdrant_collection stOnePoint 1536) COLLECTION_NAME).map
        (fun i => i.points) ≠ some [ptDefault] := by
  refine ⟨?_, ?_⟩ <;> decide

/-- C6 amended: the server's operations never delete a collection or its
points — startup leaves every existing collection entry unchanged,
update-index returns the store unmodified, and add-knowledge at most
appends points to the default collection, leaving the points every
collection already holds as a prefix of its new contents.  The setup
script's `setup_qdrant_collection`, by contrast, deletes and recreates
the default collection. -/
theorem claim_C6_server_ops_preserve_collections (st : Store) (c : String)
    (info : CollectionInfo) (h : lookupCollection st c = some info) :
    (lookupCollection (startup_ensure st) c = some info) ∧
    (∀ b req, (update_knowledge_index b st req).2 = st) ∧
    (∀ splitter embed freshId now req, ∃ extra,
      lookupCollection ((add_knowledge splitter embed freshId now st req).1) c
        = some ⟨info.dim, info.metric, info.points ++ extra⟩) := by
  refine ⟨?_, ?_, ?_⟩
  · unfold startup_ensure
    by_cases hc : hasCollection st COLLECTION_NAME
    · simp [hc, h]
    · have hc' : hasCollection st COLLECTION_NAME = false := by simpa using hc
      simp only [hc', Bool.false_eq_true, if_false]
      unfold createCollection
      rw [lookupCollection_append, h]
      rfl
  · intro b req
    exact update_knowledge_index_snd b st req
  · intro splitter embed freshId now req
    unfold add_knowledge
    rw [lookupCollection_upsertFresh, h]
    by_cases hcb : (c == boundCollection) = true
    · refine ⟨mkPoints embed freshId (splitter req.content)
        (buildMetadatas req.metadata now (splitter req.content).length), ?_⟩
      simp [hcb]
    · have hcb' : (c == boundCollection) = false := by simpa using hcb
      refine ⟨[], ?_⟩
      simp only [hcb', Bool.false_eq_true, if_false, Option.map_some]
      rw [List.append_nil]
      simp

/-- Witness for C6 amended at the two-collection store and the
non-default collection. -/
theorem claim_C6_server_ops_preserve_collections_witness :
    lookupCollection (startup_ensure stTwo) "other_kb"
      = some ⟨1536, Metric.cosine, [ptOther]⟩ ∧
    (∀ b req, (update_knowledge_index b stTwo req).2 = stTwo) ∧
    (∀ splitter embed freshId now req, ∃ extra,
      lookupCollection ((add_knowledge splitter embed freshId now stTwo req).1) "other_kb"
        = some ⟨1536, Metric.cosine, [ptOther] ++ extra⟩) :=
  claim_C6_server_ops_preserve_collections stTwo "other_kb"
    ⟨1536, Metric.cosine, [ptOther]⟩ (by decide)

/-! ## Ingestion batching -/

theorem indexDocumentsFuel_nil (embedBatch : List String → Option (List (List Int)))
    (freshId : Nat → Nat) (n : Nat) (st : Store) :
    indexDocumentsFuel embedBatch freshId n [] st = (st, true) := by
  cases n <;> simp [indexDocumentsFuel]

/-- C4 counterexample: ingesting 101 chunks — two embedding batches —
where the second batch's embedding fails leaves the first hundred points
committed in the collection: the call errors, yet the store is not the
store it started from, refuting "no point derived from that document is
stored" and "the collection state is unchanged on error". -/
theorem claim_C4_counterexample :
    (index_documents embedFailOnMarker (fun i => i) chunks101 stDefault).2 = false ∧
    (lookupCollection (index_documents embedFailOnMarker (fun i => i) chunks101
        stDefault).1 COLLECTION_NAME).map (fun i => i.points.length) = some 100 ∧
    (index_documents embedFailOnMarker (fun i => i) chunks101 stDefault).1
      ≠ stDefault := by
  refine ⟨?_, ?_, ?_⟩ <;> decide

/-- C4 amended: `index_documents` upserts in batches of 100 points per
call, so only a document of at most 100 chunks is ingested atomically:
for such a document the call either leaves the store exactly unchanged
and reports failure, or stores all its points through a single upsert
call; a document with more than 100 chunks is spread over several upsert
calls and the earlier batches stay committed when a later step fails. -/
theorem claim_C4_single_batch_atomic (embedBatch : List String → Option (List (List Int)))
    (freshId : Nat → Nat) (chunks : List (String × Metadata)) (st : Store)
    (h : chunks.length ≤ 100) :
    index_documents embedBatch freshId chunks st = (st, false) ∨
    ∃ ps, index_documents embedBatch freshId chunks st
      = (upsertFresh st COLLECTION_NAME ps, true) := by
  unfold index_documents
  cases hl : chunks.length with
  | zero =>
    right
    refine ⟨[], ?_⟩
    rw [upsertFresh_nil]
    simp [indexDocumentsFuel]
  | succ n =>
    simp only [indexDocumentsFuel]
    rw [if_neg (by omega)]
    split
    · left
      rfl
    · right
      have hdrop : chunks.drop 100 = [] := by
        apply List.drop_eq_nil_of_le
        omega
      rw [hdrop, indexDocumentsFuel_nil]
      exact ⟨_, rfl⟩

/-- Witness for C4 amended at a one-chunk document. -/
theorem claim_C4_single_batch_atomic_witness :
    index_documents embedFailOnMarker (fun i => i) [("a", emptyMeta)] stDefault
      = (stDefault, false) ∨
    ∃ ps, index_documents embedFailOnMarker (fun i => i) [("a", emptyMeta)] stDefault
      = (upsertFresh stDefault COLLECTION_NAME ps, true) :=
  claim_C4_single_batch_atomic embedFailOnMarker (fun i => i) [("a", emptyMeta)]
    stDefault (by decide)

/-- C8: separator-free text longer than `max_size` is hard-cut at
`max_size` (its first chunk is exactly the first `max_size` characters);
concretely, the 1200-character separator-free document chunked with
`max_size = 1000` and `overlap = 200` yields exactly two chunks, the
second starting 200 characters before position 1000 — at position 800 —
of the original text, and ingesting that document stores
`total_chunks = 2` on both chunks. -/
theorem claim_C8_chunker (maxSize overlap : Nat) (cs : List Char)
    (h1 : overlap < maxSize) (h2 : maxSize < cs.length) :
    (splitNoSep maxSize overlap cs).head? = some (cs.take maxSize) ∧
    splitNoSep 1000 200 docAAAA = [List.replicate 1000 'A', List.replicate 400 'A'] ∧
    (splitNoSep 1000 200 docAAAA).get? 1 = some (docAAAA.drop 800) ∧
    (add_knowledge (splitText 1000 200) (fun _ => []) (fun i => i) "t" stDefault
        ⟨String.mk docAAAA, [], "kb"⟩).2.map (fun p => p.meta.total_chunks)
      = [2, 2] := by
  refine ⟨?_, ?_, ?_, ?_⟩
  · unfold splitNoSep
    cases hl : cs.length with
    | zero => omega
    | succ n =>
      simp only [splitNoSepFuel]
      rw [if_neg (by omega), if_neg (by omega)]
      rfl
  · decide
  · decide
  · decide

/-- Witness for C8 at the 1200-character document itself. -/
theorem claim_C8_chunker_witness :
    (splitNoSep 1000 200 docAAAA).head? = some (docAAAA.take 1000) ∧
    splitNoSep 1000 200 docAAAA = [List.replicate 1000 'A', List.replicate 400 'A'] ∧
    (splitNoSep 1000 200 docAAAA).get? 1 = some (docAAAA.drop 800) ∧
    (add_knowledge (splitText 1000 200) (fun _ => []) (fun i => i) "t" stDefault
        ⟨String.mk docAAAA, [], "kb"⟩).2.map (fun p => p.meta.total_chunks)
      = [2, 2] :=
  claim_C8_chunker 1000 200 docAAAA (by decide) (by simp [docAAAA])

end DigitalForge
